import Mathlib

/-!
Shallow embedding of the `sq` package (src/sq.go): a transaction-scoped
query layer over a pooled postgres driver.  Pure Go functions become Lean
functions; the external driver (pgx) is a parameter supplying the responses
of `BeginTx`, `Commit`, `Rollback`, `Exec`, `Query` and `QueryRow`; the
caller-supplied unit of work is a parameter supplying its outcome
(normal return of an error or nil, or a panic).  Side effects that the
claims talk about (which of commit/rollback was issued, whether the driver
was contacted, whether the unit of work ran) are recorded as explicit
counters and flags in the returned run records.
-/

set_option autoImplicit false

namespace Sq

/-- Go `error` values as the package observes them through `errors.As`
with a `*pgconn.PgError` target: an error is either the terminal driver
error `pg code` (a `*pgconn.PgError`, which has no `Unwrap` method and is
therefore always the end of a chain), a wrapper holding an inner error
(any type implementing `Unwrap() error`), or a terminal non-driver error
tagged by a number. -/
inductive Err where
  | pg (code : String)
  | wrap (inner : Err)
  | base (tag : Nat)
  deriving DecidableEq, Repr

/-- Outcome of the caller-supplied unit of work `fn`: it returns `nil`,
returns a non-nil error, or panics with an opaque payload (modelled as a
number). -/
inductive FnOutcome where
  | ok
  | fail (e : Err)
  | panic (p : Nat)
  deriving DecidableEq, Repr

/-- How a call of `Tx` terminates: a normal return carrying an optional
error (`none` is Go `nil`), or a propagating panic with its payload. -/
inductive TxOutcome where
  | normal (e : Option Err)
  | panicked (p : Nat)
  deriving DecidableEq, Repr

/-- Record of one run of the transaction executor: its outcome together
with how many times commit and rollback were issued against the
underlying transaction. -/
structure TxRun where
  result : TxOutcome
  commits : Nat
  rollbacks : Nat
  deriving DecidableEq, Repr

/-- Modelled from the spec: `txExecute` is invoked from `pgxPool.Tx`
(src/sq.go line 59) but its body is not under src/.  Spec section 4.4,
outcome resolution: if `fn` returns a non-nil error, attempt rollback,
surfacing a rollback failure instead of the original error; if `fn`
returns nil, attempt commit and surface its error if any; if `fn` panics,
roll back (discarding any rollback error) and re-raise the panic.
`commitRes`/`rollbackRes` are the driver's responses should commit or
rollback be issued (`none` = success). -/
def txExecute (fn : FnOutcome) (commitRes rollbackRes : Option Err) : TxRun :=
  match fn with
  | .ok => { result := .normal commitRes, commits := 1, rollbacks := 0 }
  | .fail e =>
      match rollbackRes with
      | some e2 => { result := .normal (some e2), commits := 0, rollbacks := 1 }
      | none => { result := .normal (some e), commits := 0, rollbacks := 1 }
  | .panic p => { result := .panicked p, commits := 0, rollbacks := 1 }

/-- Transaction isolation levels of the driver (`pgx.TxIsoLevel`). -/
inductive IsoLevel where
  | serializable
  | repeatableRead
  | readCommitted
  | readUncommitted
  deriving DecidableEq, Repr

/-- Options passed to the driver's `BeginTx` (`pgx.TxOptions`; only the
isolation level is ever set by this package). -/
structure TxOptions where
  isoLevel : IsoLevel
  deriving DecidableEq, Repr

/-- Record of one run of `pgxPool.Tx`: the outcome, the options the
transaction was begun with (`none` if `BeginTx` was never reached),
whether the transaction handle was constructed, whether the unit of work
was invoked, and the commit/rollback counts. -/
structure PoolRun where
  result : TxOutcome
  beganWith : Option TxOptions
  handleCreated : Bool
  fnInvoked : Bool
  commits : Nat
  rollbacks : Nat
  deriving DecidableEq, Repr

/-- Embedding of `(p *pgxPool) Tx` (src/sq.go lines 51-60): begin a
transaction with isolation level serializable; on begin failure return
that error without building a handle or running `fn`; otherwise build the
handle and hand off to `txExecute`.  `beginTx` is the driver's `BeginTx`
response as a function of the options it receives (`none` = success). -/
def pgxPool.Tx (beginTx : TxOptions → Option Err) (fn : FnOutcome)
    (commitRes rollbackRes : Option Err) : PoolRun :=
  let opts : TxOptions := { isoLevel := .serializable }
  match beginTx opts with
  | some e =>
      { result := .normal (some e), beganWith := some opts,
        handleCreated := false, fnInvoked := false, commits := 0, rollbacks := 0 }
  | none =>
      let t := txExecute fn commitRes rollbackRes
      { result := t.result, beganWith := some opts,
        handleCreated := true, fnInvoked := true,
        commits := t.commits, rollbacks := t.rollbacks }

/-- Positional statement arguments (`[]interface{}`), opaque to this
package: it only passes them through. -/
def Arg := Nat
deriving DecidableEq, Repr

/-- Command tag of a non-row-returning statement (`pgconn.CommandTag`). -/
def Result := String
deriving DecidableEq, Repr

/-- Opaque multi-row cursor produced by the driver (`pgx.Rows`). -/
structure RowsV where
  handle : Nat
  deriving DecidableEq, Repr

/-- Opaque single-row cursor produced by the driver (`pgx.Row`). -/
structure DriverRowV where
  handle : Nat
  deriving DecidableEq, Repr

/-- Result of the one method this package calls on a `StatementBuilder`:
`ToSQL() (string, []interface{}, error)`, collapsed to its success pair
or its error. -/
def ToSQLResult := Except Err (String × List Arg)

/-- Responses of the underlying transactional connection (`pgx.Tx`) to
the three statement operations this package delegates to it.  Go `Query`
returns an interface pair `(Rows, error)` whose components are
independently nilable, hence the pair of options. -/
structure PgxTxDriver where
  exec : String → List Arg → Option Result × Option Err
  query : String → List Arg → Option RowsV × Option Err
  queryRow : String → List Arg → DriverRowV

/-- Embedding of `rowError` (src/sq.go lines 120-122): a `Row`-shaped
value carrying a pre-existing error. -/
structure rowError where
  err : Err
  deriving DecidableEq, Repr

/-- Scan target slots (`...interface{}` pointees), opaque values: the
call either copies into them or leaves them alone, which the embedding
renders by returning the slots' state after the call. -/
def Target := Nat
deriving DecidableEq, Repr

/-- Embedding of `(e rowError) Scan` (src/sq.go lines 124-126): returns
the carried error and touches no target slot; the second component is
the state of the targets after the call. -/
def rowError.Scan (e : rowError) (targets : List Target) : Err × List Target :=
  (e.err, targets)

/-- The `Row` interface value produced by `QueryRow`: either the error
sentinel or a driver row. -/
inductive RowV where
  | errRow (e : rowError)
  | driverRow (r : DriverRowV)
  deriving DecidableEq, Repr

/-- Record of one `Exec` call: the `(Result, error)` pair returned and
whether the transactional connection was contacted. -/
structure ExecRun where
  result : Option Result × Option Err
  driverCalled : Bool
  deriving DecidableEq, Repr

/-- Record of one `Query` call: the `(Rows, error)` pair returned and
whether the transactional connection was contacted. -/
structure QueryRun where
  result : Option RowsV × Option Err
  driverCalled : Bool
  deriving DecidableEq, Repr

/-- Record of one `QueryRow` call: the `Row` interface value returned
(`none` would be a nil interface, which the code never produces) and
whether the transactional connection was contacted. -/
structure QueryRowRun where
  row : Option RowV
  driverCalled : Bool
  deriving DecidableEq, Repr

/-- Embedding of `(tx *pgxTx) Exec` (src/sq.go lines 78-90), generic in
the placeholder translator it runs the SQL through: ask the builder for
`(sql, args, err)` and short-circuit on error; translate the
placeholders and short-circuit on error; otherwise delegate to the
driver, returning its pair verbatim. -/
def pgxTx.ExecWith (translate : String → Except Err String)
    (driver : PgxTxDriver) (qb : ToSQLResult) : ExecRun :=
  match qb with
  | .error e => { result := (none, some e), driverCalled := false }
  | .ok (sql, args) =>
      match translate sql with
      | .error e => { result := (none, some e), driverCalled := false }
      | .ok sql2 => { result := driver.exec sql2 args, driverCalled := true }

/-- Embedding of `(tx *pgxTx) Query` (src/sq.go lines 92-104), generic
in the placeholder translator; same three-step protocol as `Exec`. -/
def pgxTx.QueryWith (translate : String → Except Err String)
    (driver : PgxTxDriver) (qb : ToSQLResult) : QueryRun :=
  match qb with
  | .error e => { result := (none, some e), driverCalled := false }
  | .ok (sql, args) =>
      match translate sql with
      | .error e => { result := (none, some e), driverCalled := false }
      | .ok sql2 => { result := driver.query sql2 args, driverCalled := true }

/-- Embedding of `(tx *pgxTx) QueryRow` (src/sq.go lines 106-118),
generic in the placeholder translator: builder or translation failure
yields the `rowError` sentinel instead of an error return; otherwise the
driver's row is returned. -/
def pgxTx.QueryRowWith (translate : String → Except Err String)
    (driver : PgxTxDriver) (qb : ToSQLResult) : QueryRowRun :=
  match qb with
  | .error e => { row := some (.errRow ⟨e⟩), driverCalled := false }
  | .ok (sql, args) =>
      match translate sql with
      | .error e => { row := some (.errRow ⟨e⟩), driverCalled := false }
      | .ok sql2 => { row := some (.driverRow (driver.queryRow sql2 args)), driverCalled := true }

/-- Modelled from the spec: `replacePlaceholders` is called from the
three `pgxTx` methods (src/sq.go lines 84, 98, 112) but its body is not
under src/.  Spec sections 2 and 4.1: rewrite the builder's sequential
numeric-free placeholder token (`?`) into the driver's native positional
syntax `$1`, `$2`, ... in left-to-right order of occurrence, preserving
all other text verbatim.  This is the character-list worker, carrying
the index of the next placeholder. -/
def rpAux : List Char → Nat → List Char
  | [], _ => []
  | c :: rest, n =>
      if c = '?' then '$' :: (toString n).toList ++ rpAux rest (n + 1)
      else c :: rpAux rest n

/-- Modelled from the spec: the placeholder translator itself, wrapping
`rpAux` over the string's characters starting at index 1.  The spec
reserves an error return for malformed placeholder tokens; with the
single-character token no input is malformed, so the error case of the
return type is never produced here. -/
def replacePlaceholders (s : String) : Except Err String :=
  .ok ⟨rpAux s.toList 1⟩

/-- Embedding of `(tx *pgxTx) Exec` with the package's concrete
placeholder translator plugged in. -/
def pgxTx.Exec : PgxTxDriver → ToSQLResult → ExecRun :=
  pgxTx.ExecWith replacePlaceholders

/-- Embedding of `(tx *pgxTx) Query` with the package's concrete
placeholder translator plugged in. -/
def pgxTx.Query : PgxTxDriver → ToSQLResult → QueryRun :=
  pgxTx.QueryWith replacePlaceholders

/-- Embedding of `(tx *pgxTx) QueryRow` with the package's concrete
placeholder translator plugged in. -/
def pgxTx.QueryRow : PgxTxDriver → ToSQLResult → QueryRowRun :=
  pgxTx.QueryRowWith replacePlaceholders

/-- Embedding of `errors.As(err, &e)` with a `*pgconn.PgError` target:
walk the chain from the outermost error inward and return the code of
the first `pg` node found.  A `wrap` node is never itself a `*PgError`,
so the walk moves to its inner error; `pg` and `base` are terminal. -/
def errorsAsPg : Err → Option String
  | .pg code => some code
  | .wrap inner => errorsAsPg inner
  | .base _ => none

/-- Embedding of `IsError` (src/sq.go lines 128-135): false for a nil
error (`none`); otherwise true exactly when `errors.As` finds a
`*pgconn.PgError` in the chain whose code equals `code`.  The Go
`e != nil` guard is subsumed: a `pg` node always carries a code. -/
def IsError (err : Option Err) (code : String) : Bool :=
  match err with
  | none => false
  | some e =>
      match errorsAsPg e with
      | some c => c = code
      | none => false

/-- Codes of the database error markers contained in an error chain,
outermost first (used to state what "the chain contains a marker" means;
with linear chains and terminal `pg` nodes it has at most one element). -/
def chainCodes : Err → List String
  | .pg code => [code]
  | .wrap inner => chainCodes inner
  | .base _ => []

/-- Join of placeholder-free text segments with the builder's
placeholder token between consecutive segments: the generic shape of a
SQL string containing `segs.length - 1` placeholder occurrences. -/
def joinQ : List (List Char) → List Char
  | [] => []
  | [s] => s
  | s :: rest => s ++ '?' :: joinQ rest

/-- Stated from the claim for comparison with `rpAux`: the same segments
joined with native placeholders `$n`, `$(n+1)`, ... in left-to-right
order. -/
def renderSegs : List (List Char) → Nat → List Char
  | [], _ => []
  | [s], _ => s
  | s :: rest, n => s ++ '$' :: (toString n).toList ++ renderSegs rest (n + 1)

theorem rpAux_append_of_not_mem (s : List Char) (rest : List Char) (n : Nat)
    (hs : '?' ∉ s) : rpAux (s ++ rest) n = s ++ rpAux rest n := by
  induction s with
  | nil => rfl
  | cons c cs ih =>
      have hc : ¬ c = '?' := fun h => hs (h ▸ List.mem_cons_self c cs)
      have hcs : '?' ∉ cs := fun h => hs (List.mem_cons_of_mem c h)
      simp [rpAux, hc, ih hcs]

theorem rpAux_joinQ : ∀ (ss : List (List Char)) (n : Nat),
    (∀ s ∈ ss, '?' ∉ s) → rpAux (joinQ ss) n = renderSegs ss n
  | [], _, _ => rfl
  | [s], n, h => by
      have hs : '?' ∉ s := h s (List.mem_cons_self s [])
      simpa [joinQ, renderSegs, rpAux] using rpAux_append_of_not_mem s [] n hs
  | s :: t :: ts, n, h => by
      have hs : '?' ∉ s := h s (List.mem_cons_self s (t :: ts))
      have hrest : ∀ u ∈ t :: ts, '?' ∉ u := fun u hu => h u (List.mem_cons_of_mem s hu)
      have step := rpAux_append_of_not_mem s ('?' :: joinQ (t :: ts)) n hs
      have hrec := rpAux_joinQ (t :: ts) (n + 1) hrest
      simp only [joinQ, renderSegs]
      rw [step]
      simp [rpAux, hrec]

theorem count_joinQ : ∀ (ss : List (List Char)),
    (∀ s ∈ ss, '?' ∉ s) → (joinQ ss).count '?' = ss.length - 1
  | [], _ => rfl
  | [s], h => by
      have hs : '?' ∉ s := h s (List.mem_cons_self s [])
      simp [joinQ, List.count_eq_zero.mpr hs]
  | s :: t :: ts, h => by
      have hs : '?' ∉ s := h s (List.mem_cons_self s (t :: ts))
      have hrest : ∀ u ∈ t :: ts, '?' ∉ u := fun u hu => h u (List.mem_cons_of_mem s hu)
      have hrec := count_joinQ (t :: ts) hrest
      simp only [joinQ] at hrec ⊢
      simp [List.count_append, List.count_cons, List.count_eq_zero.mpr hs, hrec,
        List.length_cons, Nat.succ_sub_one, Nat.add_comm]

/-- C1: for every invocation of `Pool.Tx` in which the transaction is
successfully begun (`BeginTx` returns no error), the underlying
transaction is terminated exactly once: the total number of commit and
rollback operations issued against it is exactly one, whatever the unit
of work does and whatever the driver answers — never both, never
neither. -/
theorem tx_terminates_exactly_once (beginTx : TxOptions → Option Err)
    (fn : FnOutcome) (commitRes rollbackRes : Option Err)
    (h : beginTx { isoLevel := .serializable } = none) :
    (pgxPool.Tx beginTx fn commitRes rollbackRes).commits
      + (pgxPool.Tx beginTx fn commitRes rollbackRes).rollbacks = 1 := by
  cases fn <;> rcases rollbackRes with _ | e2 <;>
    simp [pgxPool.Tx, txExecute, h]

/-- Witness for C1 at a concrete successful begin with a unit of work
returning nil. -/
theorem tx_terminates_exactly_once_witness :
    (fun _ : TxOptions => (none : Option Err)) { isoLevel := .serializable } = none ∧
    (pgxPool.Tx (fun _ => none) .ok none none).commits
      + (pgxPool.Tx (fun _ => none) .ok none none).rollbacks = 1 :=
  ⟨rfl, tx_terminates_exactly_once (fun _ => none) .ok none none rfl⟩

/-- C2: when the unit of work returns a non-nil error `e`, the executor
issues a rollback; if the rollback fails with `e2` the run returns `e2`
(not `e`), and if the rollback succeeds the run returns `e`. -/
theorem tx_rollback_error_precedence (e : Err) (commitRes : Option Err) :
    (∀ e2 : Err,
      (txExecute (.fail e) commitRes (some e2)).rollbacks = 1 ∧
      (txExecute (.fail e) commitRes (some e2)).result = .normal (some e2)) ∧
    ((txExecute (.fail e) commitRes none).rollbacks = 1 ∧
      (txExecute (.fail e) commitRes none).result = .normal (some e)) :=
  ⟨fun _ => ⟨rfl, rfl⟩, rfl, rfl⟩

/-- C3: when the unit of work returns nil, the executor issues a commit
and returns exactly the commit outcome — the commit error when commit
fails, nil when it succeeds. -/
theorem tx_commit_on_success (commitRes rollbackRes : Option Err) :
    txExecute .ok commitRes rollbackRes
      = { result := .normal commitRes, commits := 1, rollbacks := 0 } :=
  rfl

/-- C4: when the unit of work panics with payload `p`, the executor
rolls the transaction back (one rollback, zero commits, so nothing is
left half-committed) and the run terminates by re-raising the very same
panic rather than returning an error value. -/
theorem tx_panic_safety (p : Nat) (commitRes rollbackRes : Option Err) :
    txExecute (.panic p) commitRes rollbackRes
      = { result := .panicked p, commits := 0, rollbacks := 1 } :=
  rfl

/-- C5: every `pgxPool.Tx` call begins its transaction with isolation
level serializable, and when that begin fails with `e` the call returns
`e` having created no transaction handle, invoked no unit of work, and
issued no commit or rollback. -/
theorem tx_begin_serializable (beginTx : TxOptions → Option Err)
    (fn : FnOutcome) (commitRes rollbackRes : Option Err) :
    (pgxPool.Tx beginTx fn commitRes rollbackRes).beganWith
        = some { isoLevel := .serializable } ∧
    (∀ e : Err, beginTx { isoLevel := .serializable } = some e →
      pgxPool.Tx beginTx fn commitRes rollbackRes
        = { result := .normal (some e), beganWith := some { isoLevel := .serializable },
            handleCreated := false, fnInvoked := false, commits := 0, rollbacks := 0 }) := by
  constructor
  · rcases hb : beginTx { isoLevel := .serializable } with _ | e <;>
      simp [pgxPool.Tx, hb]
  · intro e he
    simp [pgxPool.Tx, he]

/-- Witness for C5 at a driver whose begin always fails. -/
theorem tx_begin_serializable_witness :
    (pgxPool.Tx (fun _ => some (.base 7)) .ok none none).beganWith
        = some { isoLevel := .serializable } ∧
    ((fun _ : TxOptions => some (Err.base 7)) { isoLevel := .serializable } = some (.base 7) ∧
      pgxPool.Tx (fun _ => some (.base 7)) .ok none none
        = { result := .normal (some (.base 7)), beganWith := some { isoLevel := .serializable },
            handleCreated := false, fnInvoked := false, commits := 0, rollbacks := 0 }) :=
  ⟨(tx_begin_serializable (fun _ => some (.base 7)) .ok none none).1,
    rfl, (tx_begin_serializable (fun _ => some (.base 7)) .ok none none).2 (.base 7) rfl⟩

/-- C6: when the builder's `ToSQL` fails with `e`, `Exec` and `Query`
return `e` without contacting the transactional connection, and
`QueryRow` returns the non-nil error sentinel row whose `Scan` yields
`e`, also without contacting it; a placeholder-translation failure
short-circuits the same way on all three operations. -/
theorem statement_error_short_circuit (translate : String → Except Err String)
    (driver : PgxTxDriver) (e : Err) (ts : List Target) :
    pgxTx.ExecWith translate driver (Except.error e)
        = { result := (none, some e), driverCalled := false } ∧
    pgxTx.QueryWith translate driver (Except.error e)
        = { result := (none, some e), driverCalled := false } ∧
    (pgxTx.QueryRowWith translate driver (Except.error e)
        = { row := some (.errRow ⟨e⟩), driverCalled := false } ∧
      rowError.Scan ⟨e⟩ ts = (e, ts)) ∧
    (∀ (sql : String) (args : List Arg), translate sql = .error e →
      pgxTx.ExecWith translate driver (Except.ok (sql, args))
          = { result := (none, some e), driverCalled := false } ∧
      pgxTx.QueryWith translate driver (Except.ok (sql, args))
          = { result := (none, some e), driverCalled := false } ∧
      pgxTx.QueryRowWith translate driver (Except.ok (sql, args))
          = { row := some (.errRow ⟨e⟩), driverCalled := false }) := by
  refine ⟨rfl, rfl, ⟨rfl, rfl⟩, fun sql args h => ?_⟩
  exact ⟨by simp [pgxTx.ExecWith, h], by simp [pgxTx.QueryWith, h],
    by simp [pgxTx.QueryRowWith, h]⟩

/-- Witness for C6 at a failing builder and a failing translator against
a concrete driver. -/
theorem statement_error_short_circuit_witness :
    ((fun _ : String => (Except.error (Err.base 0) : Except Err String)) "q"
        = Except.error (Err.base 0)) ∧
    pgxTx.ExecWith (fun _ => Except.error (Err.base 0))
        { exec := fun _ _ => (none, none), query := fun _ _ => (none, none),
          queryRow := fun _ _ => ⟨0⟩ }
        (Except.ok ("q", []))
      = { result := (none, some (.base 0)), driverCalled := false } :=
  ⟨rfl,
    ((statement_error_short_circuit (fun _ => Except.error (Err.base 0))
      { exec := fun _ _ => (none, none), query := fun _ _ => (none, none),
        queryRow := fun _ _ => ⟨0⟩ }
      (.base 0) []).2.2.2 "q" [] rfl).1⟩

/-- C7 counterexample: a call of `Tx.Query` whose returned error is
non-nil while the returned `Rows` value is also non-nil.  The method
returns the driver's `(Rows, error)` pair verbatim, so a driver that
answers with both (as pgx does, handing back an errored-state `Rows`)
defeats the claim that a non-nil error implies nil `Rows`. -/
theorem query_nonnil_rows_with_error :
    (pgxTx.Query
        { exec := fun _ _ => (none, none),
          query := fun _ _ => (some ⟨5⟩, some (.base 3)),
          queryRow := fun _ _ => ⟨0⟩ }
        (Except.ok ("SELECT 1", []))).result.2 = some (.base 3) ∧
    (pgxTx.Query
        { exec := fun _ _ => (none, none),
          query := fun _ _ => (some ⟨5⟩, some (.base 3)),
          queryRow := fun _ _ => ⟨0⟩ }
        (Except.ok ("SELECT 1", []))).result.1 = some ⟨5⟩ :=
  ⟨rfl, rfl⟩

/-- C7 amended: errors raised by `Tx.Query` itself — builder failure or
placeholder-translation failure — are returned with nil `Rows`; once the
driver is contacted, `Tx.Query` returns the driver's `(Rows, error)`
pair verbatim, so a non-nil driver error may arrive with non-nil
`Rows`. -/
theorem query_error_paths (translate : String → Except Err String)
    (driver : PgxTxDriver) :
    (∀ e : Err,
      (pgxTx.QueryWith translate driver (Except.error e)).result = (none, some e)) ∧
    (∀ (sql : String) (args : List Arg) (e : Err), translate sql = .error e →
      (pgxTx.QueryWith translate driver (Except.ok (sql, args))).result = (none, some e)) ∧
    (∀ (sql sql2 : String) (args : List Arg), translate sql = .ok sql2 →
      (pgxTx.QueryWith translate driver (Except.ok (sql, args))).result
        = driver.query sql2 args) := by
  refine ⟨fun e => rfl, fun sql args e h => ?_, fun sql sql2 args h => ?_⟩
  · simp [pgxTx.QueryWith, h]
  · simp [pgxTx.QueryWith, h]

/-- Witness for the amended C7: a successful translation hands the
driver's pair through verbatim. -/
theorem query_error_paths_witness :
    replacePlaceholders "q" = .ok "q" ∧
    (pgxTx.QueryWith replacePlaceholders
        { exec := fun _ _ => (none, none),
          query := fun _ _ => (some ⟨5⟩, some (.base 3)),
          queryRow := fun _ _ => ⟨0⟩ }
        (Except.ok ("q", []))).result
      = PgxTxDriver.query
          { exec := fun _ _ => (none, none),
            query := fun _ _ => (some ⟨5⟩, some (.base 3)),
            queryRow := fun _ _ => ⟨0⟩ } "q" [] :=
  ⟨rfl,
    (query_error_paths replacePlaceholders
      { exec := fun _ _ => (none, none),
        query := fun _ _ => (some ⟨5⟩, some (.base 3)),
        queryRow := fun _ _ => ⟨0⟩ }).2.2 "q" "q" [] rfl⟩

/-- C8: translating a SQL string made of N+1 placeholder-free segments
joined by the placeholder token (hence containing exactly N = length - 1
occurrences of it) yields the same segments joined by native
placeholders `$1 .. $N` in left-to-right order, all other text kept
verbatim; a string with zero placeholder occurrences is returned
unchanged. -/
theorem replacePlaceholders_spec :
    (∀ ss : List (List Char), (∀ s ∈ ss, '?' ∉ s) →
      (joinQ ss).count '?' = ss.length - 1 ∧
      replacePlaceholders ⟨joinQ ss⟩ = .ok ⟨renderSegs ss 1⟩) ∧
    (∀ s : String, '?' ∉ s.toList → replacePlaceholders s = .ok s) := by
  constructor
  · intro ss h
    exact ⟨count_joinQ ss h, by simp [replacePlaceholders, rpAux_joinQ ss 1 h]⟩
  · intro s h
    cases s with
    | mk l =>
        have hs : rpAux l 1 = l := by
          simpa [rpAux] using rpAux_append_of_not_mem l [] 1 h
        simp [replacePlaceholders, String.toList, hs]

/-- Witness for C8: two placeholders in `a?_b?` become `$1` and `$2`,
and a placeholder-free string passes through untouched. -/
theorem replacePlaceholders_spec_witness :
    ((∀ s ∈ [['a'], ['_', 'b'], []], '?' ∉ s) ∧
      (joinQ [['a'], ['_', 'b'], []]).count '?' = 2 ∧
      replacePlaceholders ⟨joinQ [['a'], ['_', 'b'], []]⟩
        = .ok ⟨renderSegs [['a'], ['_', 'b'], []] 1⟩) ∧
    ('?' ∉ "SELECT 1".toList ∧ replacePlaceholders "SELECT 1" = .ok "SELECT 1") :=
  ⟨⟨by decide, replacePlaceholders_spec.1 [['a'], ['_', 'b'], []] (by decide)⟩,
    by decide, replacePlaceholders_spec.2 "SELECT 1" (by decide)⟩

/-- C9: `IsError` is false on a nil error, and on a non-nil error it is
true exactly when the error chain contains a database error marker
carrying the queried code. -/
theorem IsError_spec :
    (∀ code : String, IsError none code = false) ∧
    (∀ (e : Err) (code : String), IsError (some e) code = true ↔ code ∈ chainCodes e) := by
  refine ⟨fun _ => rfl, fun e code => ?_⟩
  induction e with
  | pg c => simp [IsError, errorsAsPg, chainCodes, eq_comm]
  | wrap inner ih => simpa [IsError, errorsAsPg, chainCodes] using ih
  | base t => simp [IsError, errorsAsPg, chainCodes]

/-- C10: the error sentinel row returns its carried error on every
invocation of `Scan`, not only the first, and leaves every target slot
exactly as it was. -/
theorem rowError_scan_frame (e : Err) :
    (∀ ts : List Target, rowError.Scan ⟨e⟩ ts = (e, ts)) ∧
    (∀ tss : List (List Target),
      tss.map (rowError.Scan ⟨e⟩) = tss.map (fun ts => (e, ts))) :=
  ⟨fun _ => rfl, fun _ => rfl⟩

end Sq
